import Mathlib

/-!
Shallow embedding of the tcxrs activity-statistics engine.

Numeric conventions of the embedding:
* Rust `f64` / `f32` values are modelled as exact rationals (`ℚ`); the
  arithmetic the verified code performs on them (addition, subtraction,
  absolute value, comparison with the literal thresholds) is exact on the
  inputs under consideration, and `f64::round` is modelled as
  round-half-away-from-zero (`rustRound`).
* Rust `usize` / `u64` are modelled as `ℕ`.  Rust integer division panics on a
  zero divisor, so operations that can hit a zero divisor return `Option ℕ`,
  with `none` standing for the panic.
* Casting a float to `u64` / `usize` with `as` saturates: negative values clamp
  to `0`, values beyond the integer range clamp to the maximum (`castU64`);
  in particular `f32::INFINITY as u64` is `u64::MAX`.  The one place the code
  divides a float by `0.0` (yielding `+∞`) is modelled explicitly.
-/

namespace Tcxrs

/-- Rust `u64::MAX` (also `usize::MAX` on 64-bit targets). -/
def U64_MAX : ℕ := 18446744073709551615

/-- Model of `f64::round`: round half away from zero. -/
def rustRound (x : ℚ) : ℤ :=
  if 0 ≤ x then ⌊x + 1/2⌋ else ⌈x - 1/2⌉

/-- Model of a saturating `as u64` / `as usize` cast applied to a finite
rounded float, already expressed as an integer. -/
def castU64 (z : ℤ) : ℕ :=
  min z.toNat U64_MAX

/-- The `FEET_PER_METER` constant, `3.28084`, as an exact rational. -/
def FEET_PER_METER : ℚ := 328084 / 100000

/-- The `METERS_PER_MILE` constant, `1609.344`; the nearest `f32` to the
written literal is `13183706 / 8192 = 1609.343994140625`. -/
def METERS_PER_MILE : ℚ := 13183706 / 8192

/-- The `ALTITUDE_THRESHOLD` constant, `1.0`. -/
def ALTITUDE_THRESHOLD : ℚ := 1

/-- `HRValue`: a heart-rate reading in beats per minute. -/
structure HRValue where
  value : ℕ
deriving DecidableEq

/-- `Position`: a latitude/longitude pair. -/
structure Position where
  lat : ℚ
  long : ℚ
deriving DecidableEq

/-- `TPXExtension`: per-trackpoint extension data. -/
structure TPXExtension where
  speed : Option ℚ
  cadence : ℕ
  watts : Option ℕ
deriving DecidableEq

/-- `TrackpointExtension`: wrapper holding a `TPX` block. -/
structure TrackpointExtension where
  tpx : TPXExtension
deriving DecidableEq

/-- `TrackPoint`: one sensor sample.  The timestamp is opaque to every
verified computation and is modelled as an integer. -/
structure TrackPoint where
  time : ℤ
  hr : Option HRValue
  distance : ℚ
  altitude : Option ℚ
  position : Option Position
  extensions : List TrackpointExtension
deriving DecidableEq

/-- `Track`: the ordered list of trackpoints of a lap. -/
structure Track where
  track_points : List TrackPoint
deriving DecidableEq

/-- `LXExtension`: per-lap extension data. -/
structure LXExtension where
  avg_speed : ℚ
  avg_cadence : Option ℕ
  max_cadence : Option ℕ
  avg_watts : Option ℕ
  max_watts : Option ℕ
deriving DecidableEq

/-- `LapExtension`: wrapper holding an `LX` block. -/
structure LapExtension where
  lx : LXExtension
deriving DecidableEq

/-- `Lap`: one lap, including the three derived elevation fields
(`last_alt`, `alt_gain_meters`, `alt_loss_meters`), which deserialize to `0`
by `serde(default)` and are populated by `calc_elevation`. -/
structure Lap where
  start_time : ℤ
  seconds : ℚ
  calories : ℕ
  distance : ℚ
  average_hr : Option HRValue
  maximum_hr : Option HRValue
  track : Track
  extensions : List LapExtension
  last_alt : ℚ
  alt_gain_meters : ℚ
  alt_loss_meters : ℚ
deriving DecidableEq

/-- `Creator`: the device that produced the activity. -/
structure Creator where
  name : String
deriving DecidableEq

/-- `Activity`: one recorded session. -/
structure Activity where
  sport : String
  id : String
  laps : List Lap
  creator : Creator
deriving DecidableEq

/-- `Activities`: the list wrapper inside the document root. -/
structure Activities where
  activities : List Activity
deriving DecidableEq

/-- `TrainingCenterDatabase`: the document root. -/
structure TrainingCenterDatabase where
  activities : Activities
deriving DecidableEq

/-- `TrainingCenterDatabase::get_activity`. -/
def TrainingCenterDatabase.get_activity (t : TrainingCenterDatabase) (idx : ℕ) :
    Option Activity :=
  t.activities.activities.get? idx

/-- `Lap::total_measurements`: the number of trackpoints this lap contains
(all of them, whether or not they carry a heart-rate value). -/
def Lap.total_measurements (l : Lap) : ℕ :=
  l.track.track_points.length

/-- `Lap::total_hr`: the sum of the heart-rate values of those trackpoints
that carry one. -/
def Lap.total_hr (l : Lap) : ℕ :=
  ((l.track.track_points.filterMap (fun tp => tp.hr)).map (fun h => h.value)).sum

/-- `Activity::lap_count`. -/
def Activity.lap_count (a : Activity) : ℕ :=
  a.laps.length

/-- `Activity::average_hr`.  With at least one lap the code divides the summed
heart-rate values by the summed trackpoint count; a `usize` division by zero
panics in Rust, modelled as `none`. -/
def Activity.average_hr (a : Activity) : Option ℕ :=
  if a.lap_count = 0 then
    some 0
  else
    let total_hr := (a.laps.map Lap.total_hr).sum
    let total_divisor := (a.laps.map Lap.total_measurements).sum
    if total_divisor = 0 then none else some (total_hr / total_divisor)

/-- `Activity::average_pace_meters`: aggregate distance over aggregate time,
`0.0` when there are no laps.  The rational model is exact whenever the
summed seconds are nonzero; with laps present but a zero time sum the Rust
`f32` division yields `±∞` or NaN, which `ℚ` collapses to `0` — a corner no
claim below exercises. -/
def Activity.average_pace_meters (a : Activity) : ℚ :=
  if a.lap_count = 0 then 0
  else ((a.laps.map Lap.distance).sum) / ((a.laps.map Lap.seconds).sum)

/-- `Activity::average_pace_seconds`: `(METERS_PER_MILE / pace).round() as u64`
seconds.  When the pace is `0.0` (in particular for zero laps) the float
division yields `+∞`, whose rounding is `+∞`, and the saturating cast gives
`u64::MAX`; a negative pace yields a negative ratio whose cast clamps at `0`.
The model is exact except when the pace itself came out of a `±∞`/NaN float
corner (see `average_pace_meters`). -/
def Activity.average_pace_seconds (a : Activity) : ℕ :=
  let pace := a.average_pace_meters
  if pace = 0 then U64_MAX
  else castU64 (rustRound (METERS_PER_MILE / pace))

/-- Zero-padded two-digit rendering of a number, Rust format `{:02}`. -/
def pad2 (n : ℕ) : String :=
  if n < 10 then "0" ++ toString n else toString n

/-- `Activity::average_pace`: the formatted pace string. -/
def Activity.average_pace (a : Activity) : String :=
  if a.lap_count = 0 then "00:00 / mi"
  else
    let secs := a.average_pace_seconds
    pad2 (secs / 60) ++ ":" ++ pad2 (secs % 60) ++ " / mi"

/-- `Activity::total_distance_meters`. -/
def Activity.total_distance_meters (a : Activity) : ℚ :=
  (a.laps.map Lap.distance).sum

/-- `Activity::total_distance_miles`. -/
def Activity.total_distance_miles (a : Activity) : ℚ :=
  (6213712 / 10000000000 : ℚ) * a.total_distance_meters

/-- `Activity::total_elevation_gain`: summed per-lap gain meters, converted to
feet and rounded. -/
def Activity.total_elevation_gain (a : Activity) : ℕ :=
  castU64 (rustRound ((a.laps.map Lap.alt_gain_meters).sum * FEET_PER_METER))

/-- `Activity::total_elevation_loss`: summed per-lap loss meters, converted to
feet and rounded. -/
def Activity.total_elevation_loss (a : Activity) : ℕ :=
  castU64 (rustRound ((a.laps.map Lap.alt_loss_meters).sum * FEET_PER_METER))

/-- `Activity::average_cadence`: summed first-extension average cadence over
the lap count, doubled.  A zero lap count is a `usize` division by zero, which
panics in Rust, modelled as `none`. -/
def Activity.average_cadence (a : Activity) : Option ℕ :=
  let total_cadence :=
    ((a.laps.filterMap (fun l => l.extensions.head?)).filterMap
      (fun ext => ext.lx.avg_cadence)).sum
  if a.lap_count = 0 then none else some ((total_cadence / a.lap_count) * 2)

/-- `Activity::average_watts`: summed first-extension average watts (missing
defaulting to `0`) over the lap count.  A zero lap count is a `usize` division
by zero, which panics in Rust, modelled as `none`. -/
def Activity.average_watts (a : Activity) : Option ℕ :=
  let total_watts :=
    ((a.laps.filterMap (fun l => l.extensions.head?)).map
      (fun ext => ext.lx.avg_watts.getD 0)).sum
  if a.lap_count = 0 then none else some (total_watts / a.lap_count)

/-- The initial `last_alt` of `Lap::calc_elevation`: the altitude of the first
trackpoint when present and known, else `0.0`. -/
def elevInit (l : Lap) : ℚ :=
  match l.track.track_points.head? with
  | some tp => tp.altitude.getD 0
  | none => 0

/-- One iteration of the loop body of `Lap::calc_elevation` on the state
`(last_alt, alt_gain_meters, alt_loss_meters)`. -/
def elevStep (s : ℚ × ℚ × ℚ) (tp : TrackPoint) : ℚ × ℚ × ℚ :=
  match tp.altitude with
  | none => s
  | some altitude =>
    let alt_change := |altitude - s.1|
    if alt_change < ALTITUDE_THRESHOLD then s
    else if altitude > s.1 then (altitude, s.2.1 + alt_change, s.2.2)
    else (altitude, s.2.1, s.2.2 + alt_change)

/-- The final `(last_alt, alt_gain_meters, alt_loss_meters)` state of
`Lap::calc_elevation`: seed `last_alt` from the first trackpoint, then run the
loop over every trackpoint; the gain/loss accumulators continue from their
current field values (the code uses `+=` and never resets them). -/
def elevRun (l : Lap) : ℚ × ℚ × ℚ :=
  l.track.track_points.foldl elevStep
    (elevInit l, l.alt_gain_meters, l.alt_loss_meters)

/-- `Lap::calc_elevation`: write the final loop state back into the three
derived fields. -/
def Lap.calc_elevation (l : Lap) : Lap :=
  { l with
      last_alt := (elevRun l).1
      alt_gain_meters := (elevRun l).2.1
      alt_loss_meters := (elevRun l).2.2 }

/-- `Activity::calc_lap_elevations`: run the elevation pass over every lap. -/
def Activity.calc_lap_elevations (a : Activity) : Activity :=
  { a with laps := a.laps.map Lap.calc_elevation }

/-- `ActivityStats`: the derived per-activity statistics record. -/
structure ActivityStats where
  date : String
  laps : ℕ
  distance_mi : ℚ
  distance_km : ℚ
  average_hr : ℕ
  average_pace : String
  average_pace_seconds : ℕ
  average_watts : ℕ
  average_cadence : ℕ
  elevation_gain : ℕ
  elevation_loss : ℕ
deriving DecidableEq

/-- `ActivityStats::new`: builds the stats record from an activity.  Any panic
in one of the averaging helpers (a `usize` division by zero) aborts the
construction, modelled by `Option` propagation. -/
def ActivityStats.new (a : Activity) : Option ActivityStats := do
  let hr ← a.average_hr
  let watts ← a.average_watts
  let cadence ← a.average_cadence
  some
    { date := a.id
      laps := a.lap_count
      distance_mi := a.total_distance_miles
      distance_km := a.total_distance_meters / 1000
      average_hr := hr
      average_pace := a.average_pace
      average_pace_seconds := a.average_pace_seconds
      average_watts := watts
      average_cadence := cadence
      elevation_gain := a.total_elevation_gain
      elevation_loss := a.total_elevation_loss }

/-- The activity-selection step of `display_folder_stats`: activity `0` of
each parsed document (documents without one are dropped), elevation pass
applied. -/
def selectActivities (docs : List TrainingCenterDatabase) : List Activity :=
  docs.filterMap (fun d => (d.get_activity 0).map Activity.calc_lap_elevations)

/-- The comparator of `display_folder_stats`: `a1.id.cmp(&a2.id)` as a
boolean `le` on identifier strings. -/
def idLe (a1 a2 : Activity) : Bool :=
  decide (a1.id ≤ a2.id)

/-- The ordering step of `display_folder_stats`: a stable sort of the selected
activities by identifier (`sort_by` in Rust is stable; `List.mergeSort` is the
corresponding stable sort). -/
def orderedActivities (docs : List TrainingCenterDatabase) : List Activity :=
  (selectActivities docs).mergeSort idLe

/-- All trackpoints of an activity, laps in order. -/
def Activity.allSamples (a : Activity) : List TrackPoint :=
  (a.laps.map (fun l => l.track.track_points)).flatten

/-- Average heart rate as the spec's sentence describes it: the sum of every
sample's heart-rate value across all laps, divided by the count of samples
that carry a heart-rate value across all laps.  Stated from the spec's words,
for comparison with `Activity.average_hr`. -/
def specAverageHr (a : Activity) : ℕ :=
  (((a.allSamples).filterMap (fun tp => tp.hr)).map (fun h => h.value)).sum /
    ((a.allSamples).filterMap (fun tp => tp.hr)).length

/-- Builds a trackpoint carrying only the fields the verified computations
inspect: an optional heart rate and an optional altitude. -/
def mkTp (hr : Option ℕ) (alt : Option ℚ) : TrackPoint :=
  { time := 0
    hr := hr.map HRValue.mk
    distance := 0
    altitude := alt
    position := none
    extensions := [] }

/-- Builds a lap around a given trackpoint list, every other field at its
deserialized default. -/
def mkLap (pts : List TrackPoint) : Lap :=
  { start_time := 0
    seconds := 0
    calories := 0
    distance := 0
    average_hr := none
    maximum_hr := none
    track := { track_points := pts }
    extensions := []
    last_alt := 0
    alt_gain_meters := 0
    alt_loss_meters := 0 }

/-- Builds an activity around a given lap list. -/
def mkAct (laps : List Lap) : Activity :=
  { sport := "Running"
    id := "2023-01-01T00:00:00Z"
    laps := laps
    creator := { name := "device" } }

/-- An activity with zero laps. -/
def act0 : Activity := mkAct []

/-- An activity with one lap holding two trackpoints, exactly one of which
carries a heart-rate value (100 bpm). -/
def actHr : Activity :=
  mkAct [mkLap [mkTp (some 100) none, mkTp none none]]

/-- A lap whose consecutive altitude deltas are each `3/5 < 1`, yet whose
total drift from the first altitude reaches `6/5 ≥ 1`. -/
def lapDrift : Lap :=
  mkLap [mkTp none (some 0), mkTp none (some (3/5)), mkTp none (some (6/5))]

/-- A lap with a single known-altitude trackpoint at `100`. -/
def lapOne : Lap :=
  mkLap [mkTp none (some 100)]

/-- `lapOne` with an unknown-altitude trackpoint inserted at the front. -/
def lapNoneFront : Lap :=
  mkLap [mkTp none none, mkTp none (some 100)]

/-- The spec's worked example: altitudes `[100.0, 100.5, 102.0, 101.0, 99.0]`. -/
def lapWorked : Lap :=
  mkLap [mkTp none (some 100), mkTp none (some (201/2)), mkTp none (some 102),
    mkTp none (some 101), mkTp none (some 99)]

/-- An activity whose single lap is the worked example. -/
def actWorked : Activity := mkAct [lapWorked]

/-- A lap whose known altitudes all sit within `1` of the first altitude. -/
def lapCalm : Lap :=
  mkLap [mkTp none (some 100), mkTp none (some (201/2))]

/-- A two-trackpoint lap used to witness insertion after the first sample. -/
def lapPair : Lap :=
  mkLap [mkTp none (some 100), mkTp none (some 102)]

/-- An activity with one lap that contains no trackpoints at all. -/
def actEmptyLap : Activity := mkAct [mkLap []]

/-! ### Helper lemmas about the elevation step -/

theorem elevStep_of_none (s : ℚ × ℚ × ℚ) (tp : TrackPoint)
    (h : tp.altitude = none) : elevStep s tp = s := by
  simp [elevStep, h]

theorem elevStep_of_small (s : ℚ × ℚ × ℚ) (tp : TrackPoint) (alt : ℚ)
    (h : tp.altitude = some alt) (hlt : |alt - s.1| < ALTITUDE_THRESHOLD) :
    elevStep s tp = s := by
  simp [elevStep, h, hlt]

theorem elevStep_of_up (s : ℚ × ℚ × ℚ) (tp : TrackPoint) (alt : ℚ)
    (h : tp.altitude = some alt) (hge : ALTITUDE_THRESHOLD ≤ alt - s.1) :
    elevStep s tp = (alt, s.2.1 + (alt - s.1), s.2.2) := by
  have h0 : (0 : ℚ) ≤ alt - s.1 := by
    have : (0 : ℚ) < ALTITUDE_THRESHOLD := by norm_num [ALTITUDE_THRESHOLD]
    linarith
  have habs : |alt - s.1| = alt - s.1 := abs_of_nonneg h0
  have hnlt : ¬ |alt - s.1| < ALTITUDE_THRESHOLD := by rw [habs]; exact not_lt.mpr hge
  have hgt : alt > s.1 := by
    have : (0 : ℚ) < ALTITUDE_THRESHOLD := by norm_num [ALTITUDE_THRESHOLD]
    have : (0 : ℚ) < alt - s.1 := lt_of_lt_of_le this hge
    linarith
  simp only [elevStep, h, if_neg hnlt, if_pos hgt]
  rw [habs]

theorem elevStep_of_down (s : ℚ × ℚ × ℚ) (tp : TrackPoint) (alt : ℚ)
    (h : tp.altitude = some alt) (hle : alt - s.1 ≤ -ALTITUDE_THRESHOLD) :
    elevStep s tp = (alt, s.2.1, s.2.2 + (s.1 - alt)) := by
  have hpos : (0 : ℚ) < ALTITUDE_THRESHOLD := by norm_num [ALTITUDE_THRESHOLD]
  have h0 : alt - s.1 ≤ 0 := by linarith
  have habs : |alt - s.1| = s.1 - alt := by rw [abs_of_nonpos h0]; ring
  have hnlt : ¬ |alt - s.1| < ALTITUDE_THRESHOLD := by
    rw [habs]; exact not_lt.mpr (by linarith)
  have hngt : ¬ alt > s.1 := by linarith
  simp only [elevStep, h, if_neg hnlt, if_neg hngt]
  rw [habs]

theorem elevStep_le (s : ℚ × ℚ × ℚ) (tp : TrackPoint) :
    s.2.1 ≤ (elevStep s tp).2.1 ∧ s.2.2 ≤ (elevStep s tp).2.2 := by
  cases h : tp.altitude with
  | none => rw [elevStep_of_none s tp h]; exact ⟨le_refl _, le_refl _⟩
  | some alt =>
    by_cases h1 : |alt - s.1| < ALTITUDE_THRESHOLD
    · rw [elevStep_of_small s tp alt h h1]; exact ⟨le_refl _, le_refl _⟩
    · have habs : (0 : ℚ) ≤ |alt - s.1| := abs_nonneg _
      by_cases h2 : alt > s.1
      · simp only [elevStep, h]
        rw [if_neg h1, if_pos h2]
        exact ⟨by simp [habs], le_refl _⟩
      · simp only [elevStep, h]
        rw [if_neg h1, if_neg h2]
        exact ⟨le_refl _, by simp [habs]⟩

theorem elevStep_cases (s : ℚ × ℚ × ℚ) (tp : TrackPoint) :
    ((elevStep s tp).2.1 = s.2.1 ∧ (elevStep s tp).2.2 = s.2.2) ∨
    (s.2.1 + ALTITUDE_THRESHOLD ≤ (elevStep s tp).2.1 ∧ (elevStep s tp).2.2 = s.2.2) ∨
    (s.2.2 + ALTITUDE_THRESHOLD ≤ (elevStep s tp).2.2 ∧ (elevStep s tp).2.1 = s.2.1) := by
  cases h : tp.altitude with
  | none => left; rw [elevStep_of_none s tp h]; exact ⟨rfl, rfl⟩
  | some alt =>
    by_cases h1 : |alt - s.1| < ALTITUDE_THRESHOLD
    · left; rw [elevStep_of_small s tp alt h h1]; exact ⟨rfl, rfl⟩
    · have hge : ALTITUDE_THRESHOLD ≤ |alt - s.1| := not_lt.mp h1
      by_cases h2 : alt > s.1
      · right; left
        have habs : |alt - s.1| = alt - s.1 := abs_of_nonneg (by linarith)
        rw [elevStep_of_up s tp alt h (by rw [habs] at hge; exact hge)]
        constructor
        · have : ALTITUDE_THRESHOLD ≤ alt - s.1 := by rw [habs] at hge; exact hge
          simpa using this
        · rfl
      · right; right
        have h3 : alt ≤ s.1 := not_lt.mp h2
        have habs : |alt - s.1| = s.1 - alt := by
          rw [abs_of_nonpos (by linarith)]; ring
        have hdown : alt - s.1 ≤ -ALTITUDE_THRESHOLD := by
          rw [habs] at hge; linarith
        rw [elevStep_of_down s tp alt h hdown]
        constructor
        · have : ALTITUDE_THRESHOLD ≤ s.1 - alt := by rw [habs] at hge; exact hge
          simpa using this
        · rfl

theorem foldl_elevStep_le (pts : List TrackPoint) (s : ℚ × ℚ × ℚ) :
    s.2.1 ≤ (pts.foldl elevStep s).2.1 ∧ s.2.2 ≤ (pts.foldl elevStep s).2.2 := by
  induction pts generalizing s with
  | nil => exact ⟨le_refl _, le_refl _⟩
  | cons tp pts ih =>
    rw [List.foldl_cons]
    exact ⟨le_trans (elevStep_le s tp).1 (ih (elevStep s tp)).1,
           le_trans (elevStep_le s tp).2 (ih (elevStep s tp)).2⟩

theorem foldl_elevStep_fixed (r g lo : ℚ) (pts : List TrackPoint)
    (h : ∀ tp ∈ pts, ∀ alt, tp.altitude = some alt → |alt - r| < ALTITUDE_THRESHOLD) :
    pts.foldl elevStep (r, g, lo) = (r, g, lo) := by
  induction pts with
  | nil => rfl
  | cons tp pts ih =>
    have hstep : elevStep (r, g, lo) tp = (r, g, lo) := by
      cases htp : tp.altitude with
      | none => exact elevStep_of_none _ tp htp
      | some alt =>
        exact elevStep_of_small _ tp alt htp (h tp (List.mem_cons_self tp pts) alt htp)
    rw [List.foldl_cons, hstep]
    exact ih (fun tp' h' alt h'' => h tp' (List.mem_cons_of_mem _ h') alt h'')

theorem calc_elevation_gain_le (l : Lap) :
    l.alt_gain_meters ≤ (l.calc_elevation).alt_gain_meters ∧
    l.alt_loss_meters ≤ (l.calc_elevation).alt_loss_meters :=
  foldl_elevStep_le l.track.track_points
    (elevInit l, l.alt_gain_meters, l.alt_loss_meters)

/-! ### Concrete evaluations of the elevation filter -/

theorem elevRun_lapDrift : elevRun lapDrift = (6/5, 6/5, 0) := by
  have e0 := elevStep_of_small ((0 : ℚ), (0 : ℚ), (0 : ℚ)) (mkTp none (some 0)) 0 rfl
    (by rw [abs_sub_lt_iff]; norm_num [ALTITUDE_THRESHOLD])
  have e1 := elevStep_of_small ((0 : ℚ), (0 : ℚ), (0 : ℚ)) (mkTp none (some (3/5)))
    (3/5) rfl (by rw [abs_sub_lt_iff]; norm_num [ALTITUDE_THRESHOLD])
  have e2 : elevStep ((0 : ℚ), (0 : ℚ), (0 : ℚ)) (mkTp none (some (6/5))) =
      (6/5, 6/5, 0) := by
    rw [elevStep_of_up ((0 : ℚ), (0 : ℚ), (0 : ℚ)) (mkTp none (some (6/5))) (6/5) rfl
      (by norm_num [ALTITUDE_THRESHOLD])]
    norm_num
  show [mkTp none (some 0), mkTp none (some (3/5)), mkTp none (some (6/5))].foldl
    elevStep ((0 : ℚ), (0 : ℚ), (0 : ℚ)) = (6/5, 6/5, 0)
  rw [List.foldl_cons, e0, List.foldl_cons, e1, List.foldl_cons, e2, List.foldl_nil]

theorem elevRun_lapOne : elevRun lapOne = (100, 0, 0) := by
  have e0 := elevStep_of_small ((100 : ℚ), (0 : ℚ), (0 : ℚ)) (mkTp none (some 100)) 100 rfl
    (by rw [abs_sub_lt_iff]; norm_num [ALTITUDE_THRESHOLD])
  show [mkTp none (some 100)].foldl elevStep ((100 : ℚ), (0 : ℚ), (0 : ℚ)) = (100, 0, 0)
  rw [List.foldl_cons, e0, List.foldl_nil]

theorem elevRun_lapNoneFront : elevRun lapNoneFront = (100, 100, 0) := by
  have e0 := elevStep_of_none ((0 : ℚ), (0 : ℚ), (0 : ℚ)) (mkTp none none) rfl
  have e1 : elevStep ((0 : ℚ), (0 : ℚ), (0 : ℚ)) (mkTp none (some 100)) =
      (100, 100, 0) := by
    rw [elevStep_of_up ((0 : ℚ), (0 : ℚ), (0 : ℚ)) (mkTp none (some 100)) 100 rfl
      (by norm_num [ALTITUDE_THRESHOLD])]
    norm_num
  show [mkTp none none, mkTp none (some 100)].foldl elevStep
    ((0 : ℚ), (0 : ℚ), (0 : ℚ)) = (100, 100, 0)
  rw [List.foldl_cons, e0, List.foldl_cons, e1, List.foldl_nil]

theorem elevRun_lapWorked : elevRun lapWorked = (99, 2, 3) := by
  have e0 := elevStep_of_small ((100 : ℚ), (0 : ℚ), (0 : ℚ)) (mkTp none (some 100)) 100 rfl
    (by rw [abs_sub_lt_iff]; norm_num [ALTITUDE_THRESHOLD])
  have e1 := elevStep_of_small ((100 : ℚ), (0 : ℚ), (0 : ℚ)) (mkTp none (some (201/2)))
    (201/2) rfl (by rw [abs_sub_lt_iff]; norm_num [ALTITUDE_THRESHOLD])
  have e2 : elevStep ((100 : ℚ), (0 : ℚ), (0 : ℚ)) (mkTp none (some 102)) =
      (102, 2, 0) := by
    rw [elevStep_of_up ((100 : ℚ), (0 : ℚ), (0 : ℚ)) (mkTp none (some 102)) 102 rfl
      (by norm_num [ALTITUDE_THRESHOLD])]
    norm_num
  have e3 : elevStep ((102 : ℚ), (2 : ℚ), (0 : ℚ)) (mkTp none (some 101)) =
      (101, 2, 1) := by
    rw [elevStep_of_down ((102 : ℚ), (2 : ℚ), (0 : ℚ)) (mkTp none (some 101)) 101 rfl
      (by norm_num [ALTITUDE_THRESHOLD])]
    norm_num
  have e4 : elevStep ((101 : ℚ), (2 : ℚ), (1 : ℚ)) (mkTp none (some 99)) =
      (99, 2, 3) := by
    rw [elevStep_of_down ((101 : ℚ), (2 : ℚ), (1 : ℚ)) (mkTp none (some 99)) 99 rfl
      (by norm_num [ALTITUDE_THRESHOLD])]
    norm_num
  show [mkTp none (some 100), mkTp none (some (201/2)), mkTp none (some 102),
    mkTp none (some 101), mkTp none (some 99)].foldl elevStep
    ((100 : ℚ), (0 : ℚ), (0 : ℚ)) = (99, 2, 3)
  rw [List.foldl_cons, e0, List.foldl_cons, e1, List.foldl_cons, e2,
    List.foldl_cons, e3, List.foldl_cons, e4, List.foldl_nil]

/-! ### Claims -/

/-- C1: the claim states that building the stats record of a zero-lap activity
is well-defined and non-crashing.  The code contradicts this: with zero laps
`average_watts` and `average_cadence` divide by `lap_count() == 0`, a `usize`
division by zero that panics in Rust, so `ActivityStats::new` crashes.  The
panic is modelled as `none`. -/
theorem c1_zero_laps_stats_construction_fails (a : Activity) (h : a.laps = []) :
    ActivityStats.new a = none := by
  simp [ActivityStats.new, Activity.average_hr, Activity.average_watts,
    Activity.lap_count, h]

/-- Witness to C1 at the concrete zero-lap activity. -/
theorem c1_zero_laps_stats_construction_fails_witness :
    act0.laps = [] ∧ ActivityStats.new act0 = none :=
  ⟨rfl, c1_zero_laps_stats_construction_fails act0 rfl⟩

/-- C2 counterexample: on an activity with one lap of two samples, of which
only one carries a heart-rate value (100 bpm), the code divides by the count
of all samples (2) and returns 50, while the claim's divisor (count of samples
carrying a heart-rate value, 1) would give 100. -/
theorem c2_average_hr_divisor_counterexample :
    Activity.average_hr actHr = some 50 ∧ specAverageHr actHr = 100 ∧
    Activity.average_hr actHr ≠ some (specAverageHr actHr) := by
  refine ⟨?_, ?_, ?_⟩ <;> decide

/-- C2 amended: with at least one lap and at least one sample, `average_hr`
equals the sum of every sample's heart-rate value across all laps divided by
the count of all samples across all laps (not only those carrying a
heart-rate value). -/
theorem c2_average_hr_weighted_by_all_samples (a : Activity) (h : a.laps ≠ [])
    (h2 : a.allSamples ≠ []) :
    a.average_hr = some
      ((((a.allSamples).filterMap (fun tp => tp.hr)).map (fun v => v.value)).sum /
        (a.allSamples).length) := by
  have h0 : ¬ a.lap_count = 0 := by
    simp [Activity.lap_count, List.length_eq_zero, h]
  have hlen : (a.laps.map Lap.total_measurements).sum = (a.allSamples).length := by
    rw [Activity.allSamples, List.length_flatten, List.map_map]
    rfl
  have hsum : (a.laps.map Lap.total_hr).sum =
      (((a.allSamples).filterMap (fun tp => tp.hr)).map (fun v => v.value)).sum := by
    rw [Activity.allSamples, List.filterMap_flatten, List.map_flatten,
      List.sum_flatten, List.map_map, List.map_map, List.map_map]
    rfl
  have hne : ¬ (a.allSamples).length = 0 := by
    simpa [List.length_eq_zero] using h2
  simp only [Activity.average_hr, if_neg h0, hlen, hsum, if_neg hne]

/-- Witness to C2 (amended) at the concrete two-sample activity. -/
theorem c2_average_hr_weighted_by_all_samples_witness :
    actHr.laps ≠ [] ∧ actHr.allSamples ≠ [] ∧
    Activity.average_hr actHr = some
      ((((actHr.allSamples).filterMap (fun tp => tp.hr)).map (fun v => v.value)).sum /
        (actHr.allSamples).length) :=
  ⟨by decide, by decide,
    c2_average_hr_weighted_by_all_samples actHr (by decide) (by decide)⟩

/-- C5 counterexample: for the concrete zero-lap activity the pace string is
the sentinel, but `average_pace_seconds` is not zero: the float division
`1609.344 / 0.0` yields infinity and the saturating `as u64` cast gives
`u64::MAX`. -/
theorem c5_pace_seconds_counterexample :
    act0.average_pace = "00:00 / mi" ∧ act0.average_pace_seconds ≠ 0 := by
  constructor
  · rfl
  · show Activity.average_pace_seconds act0 ≠ 0
    simp [Activity.average_pace_seconds, Activity.average_pace_meters,
      Activity.lap_count, act0, mkAct, U64_MAX]

/-- C5 amended: for a zero-lap activity `average_pace()` is the sentinel
string, while `average_pace_seconds()` saturates to `u64::MAX` seconds (the
rounded float division by the zero pace is `+∞`, cast saturating). -/
theorem c5_zero_laps_pace_sentinel_and_saturation (a : Activity)
    (h : a.laps = []) :
    a.average_pace = "00:00 / mi" ∧ a.average_pace_seconds = U64_MAX := by
  have h0 : a.lap_count = 0 := by simp [Activity.lap_count, h]
  constructor
  · simp [Activity.average_pace, h0]
  · simp [Activity.average_pace_seconds, Activity.average_pace_meters, h0]

/-- Witness to C5 (amended) at the concrete zero-lap activity. -/
theorem c5_zero_laps_pace_sentinel_and_saturation_witness :
    act0.laps = [] ∧
    (act0.average_pace = "00:00 / mi" ∧ act0.average_pace_seconds = U64_MAX) :=
  ⟨rfl, c5_zero_laps_pace_sentinel_and_saturation act0 rfl⟩

/-- C8: an activity with at least one lap whose laps together hold zero
trackpoints makes `average_hr` divide by a zero divisor — a `usize` division
by zero, i.e. a panic, modelled as `none`; the zero-lap guard does not cover
this case. -/
theorem c8_laps_without_samples_average_hr_fails (a : Activity)
    (h : a.laps ≠ []) (h2 : ∀ l ∈ a.laps, l.track.track_points = []) :
    a.average_hr = none := by
  have h0 : ¬ a.lap_count = 0 := by
    simp [Activity.lap_count, List.length_eq_zero, h]
  have hdiv : (a.laps.map Lap.total_measurements).sum = 0 := by
    apply List.sum_eq_zero
    intro x hx
    simp only [List.mem_map] at hx
    obtain ⟨l, hl, rfl⟩ := hx
    simp [Lap.total_measurements, h2 l hl]
  simp [Activity.average_hr, h0, hdiv]

/-- Witness to C8 at the concrete one-lap, zero-trackpoint activity. -/
theorem c8_laps_without_samples_average_hr_fails_witness :
    actEmptyLap.laps ≠ [] ∧ Activity.average_hr actEmptyLap = none :=
  ⟨by simp [actEmptyLap, mkAct],
    c8_laps_without_samples_average_hr_fails actEmptyLap
      (by simp [actEmptyLap, mkAct])
      (by intro l hl
          simp [actEmptyLap, mkAct] at hl
          subst hl
          rfl)⟩

/-- C9: the elevation pass only rewrites the three derived fields; every other
field of every lap — the trackpoints included — and the activity's own fields
are unchanged. -/
theorem c9_elevation_pass_frame (a : Activity) :
    (a.calc_lap_elevations).sport = a.sport ∧
    (a.calc_lap_elevations).id = a.id ∧
    (a.calc_lap_elevations).creator = a.creator ∧
    (a.calc_lap_elevations).laps = a.laps.map Lap.calc_elevation ∧
    ∀ l : Lap,
      (l.calc_elevation).start_time = l.start_time ∧
      (l.calc_elevation).seconds = l.seconds ∧
      (l.calc_elevation).calories = l.calories ∧
      (l.calc_elevation).distance = l.distance ∧
      (l.calc_elevation).average_hr = l.average_hr ∧
      (l.calc_elevation).maximum_hr = l.maximum_hr ∧
      (l.calc_elevation).track = l.track ∧
      (l.calc_elevation).extensions = l.extensions :=
  ⟨rfl, rfl, rfl, rfl, fun _ => ⟨rfl, rfl, rfl, rfl, rfl, rfl, rfl, rfl⟩⟩

/-- C10: the elevation pass never decreases either accumulator, every single
addition to an accumulator is at least the `1.0` threshold, and starting from
the deserialized defaults of `0.0` both totals stay nonnegative after any
number of runs. -/
theorem c10_accumulators_monotone_and_threshold (l : Lap) :
    (l.alt_gain_meters ≤ (l.calc_elevation).alt_gain_meters ∧
     l.alt_loss_meters ≤ (l.calc_elevation).alt_loss_meters) ∧
    (∀ (s : ℚ × ℚ × ℚ) (tp : TrackPoint),
      ((elevStep s tp).2.1 = s.2.1 ∧ (elevStep s tp).2.2 = s.2.2) ∨
      (s.2.1 + ALTITUDE_THRESHOLD ≤ (elevStep s tp).2.1 ∧
        (elevStep s tp).2.2 = s.2.2) ∨
      (s.2.2 + ALTITUDE_THRESHOLD ≤ (elevStep s tp).2.2 ∧
        (elevStep s tp).2.1 = s.2.1)) ∧
    (∀ n : ℕ, l.alt_gain_meters = 0 → l.alt_loss_meters = 0 →
      0 ≤ (Lap.calc_elevation^[n] l).alt_gain_meters ∧
      0 ≤ (Lap.calc_elevation^[n] l).alt_loss_meters) := by
  refine ⟨calc_elevation_gain_le l, fun s tp => elevStep_cases s tp, ?_⟩
  intro n hg hl
  induction n with
  | zero => simp [hg, hl]
  | succ n ih =>
    rw [Function.iterate_succ_apply']
    exact ⟨le_trans ih.1 (calc_elevation_gain_le _).1,
           le_trans ih.2 (calc_elevation_gain_le _).2⟩

/-- Witness to C10 at the worked-example lap, two runs of the pass. -/
theorem c10_accumulators_monotone_and_threshold_witness :
    lapWorked.alt_gain_meters = 0 ∧ lapWorked.alt_loss_meters = 0 ∧
    (0 ≤ (Lap.calc_elevation^[2] lapWorked).alt_gain_meters ∧
     0 ≤ (Lap.calc_elevation^[2] lapWorked).alt_loss_meters) :=
  ⟨rfl, rfl, (c10_accumulators_monotone_and_threshold lapWorked).2.2 2 rfl rfl⟩

/-- C3 counterexample: a default lap whose consecutive altitude deltas are all
`3/5 < 1` still accumulates: the reference altitude never moves while deltas
stay below threshold, so the drift from the first altitude reaches
`6/5 ≥ 1` and is added to the gain. -/
theorem c3_consecutive_deltas_counterexample :
    (lapDrift.track.track_points.map (fun tp => tp.altitude)) =
      [some 0, some (3/5), some (6/5)] ∧
    List.Chain' (fun x y : ℚ => |y - x| < ALTITUDE_THRESHOLD) [0, 3/5, 6/5] ∧
    ¬ ((lapDrift.calc_elevation).alt_gain_meters = 0 ∧
       (lapDrift.calc_elevation).alt_loss_meters = 0) := by
  have hg : (lapDrift.calc_elevation).alt_gain_meters = 6/5 := by
    show (elevRun lapDrift).2.1 = 6/5
    rw [elevRun_lapDrift]
  refine ⟨rfl, ?_, ?_⟩
  · refine List.chain'_cons.mpr ⟨?_, List.chain'_cons.mpr ⟨?_, List.chain'_singleton _⟩⟩
    · rw [abs_sub_lt_iff]; norm_num [ALTITUDE_THRESHOLD]
    · rw [abs_sub_lt_iff]; norm_num [ALTITUDE_THRESHOLD]
  · rintro ⟨hc, -⟩
    rw [hg] at hc
    norm_num at hc

/-- C3 amended: the hysteresis filter adds nothing exactly when every known
altitude stays strictly within the threshold of the initial reference (the
first sample's altitude if known, else `0.0`) — not when consecutive deltas
are small; the accumulators then keep their initial values (`0.0` for a
freshly deserialized lap), however many samples the lap contains. -/
theorem c3_within_threshold_of_reference_no_accumulation (l : Lap)
    (h : ∀ tp ∈ l.track.track_points, ∀ alt, tp.altitude = some alt →
      |alt - elevInit l| < ALTITUDE_THRESHOLD) :
    (l.calc_elevation).alt_gain_meters = l.alt_gain_meters ∧
    (l.calc_elevation).alt_loss_meters = l.alt_loss_meters := by
  have hrun : elevRun l = (elevInit l, l.alt_gain_meters, l.alt_loss_meters) :=
    foldl_elevStep_fixed (elevInit l) l.alt_gain_meters l.alt_loss_meters
      l.track.track_points h
  constructor
  · show (elevRun l).2.1 = _
    rw [hrun]
  · show (elevRun l).2.2 = _
    rw [hrun]

/-- Witness to C3 (amended) at a lap oscillating within the threshold. -/
theorem c3_within_threshold_of_reference_no_accumulation_witness :
    (∀ tp ∈ lapCalm.track.track_points, ∀ alt, tp.altitude = some alt →
      |alt - elevInit lapCalm| < ALTITUDE_THRESHOLD) ∧
    ((lapCalm.calc_elevation).alt_gain_meters = lapCalm.alt_gain_meters ∧
     (lapCalm.calc_elevation).alt_loss_meters = lapCalm.alt_loss_meters) := by
  have h : ∀ tp ∈ lapCalm.track.track_points, ∀ alt, tp.altitude = some alt →
      |alt - elevInit lapCalm| < ALTITUDE_THRESHOLD := by
    intro tp htp alt halt
    have hinit : elevInit lapCalm = 100 := rfl
    rw [hinit]
    simp only [lapCalm, mkLap, List.mem_cons, List.mem_singleton,
      List.not_mem_nil, or_false] at htp
    rcases htp with rfl | rfl
    · simp only [mkTp, Option.some.injEq] at halt
      subst halt
      rw [abs_sub_lt_iff]
      norm_num [ALTITUDE_THRESHOLD]
    · simp only [mkTp, Option.some.injEq] at halt
      subst halt
      rw [abs_sub_lt_iff]
      norm_num [ALTITUDE_THRESHOLD]
  exact ⟨h, c3_within_threshold_of_reference_no_accumulation lapCalm h⟩

/-- C4 counterexample: inserting an unknown-altitude sample at the first
position changes the result.  Without it, the single-sample lap at altitude
`100` yields zero gain; with it in front, `last_altitude` initializes to
`0.0` (`unwrap_or`), and the `100` sample then registers as a `100` gain. -/
theorem c4_front_insertion_counterexample :
    (mkTp none none : TrackPoint).altitude = none ∧
    lapNoneFront.track.track_points =
      (mkTp none none) :: lapOne.track.track_points ∧
    (lapOne.calc_elevation).alt_gain_meters = 0 ∧
    (lapNoneFront.calc_elevation).alt_gain_meters = 100 := by
  refine ⟨rfl, rfl, ?_, ?_⟩
  · show (elevRun lapOne).2.1 = 0
    rw [elevRun_lapOne]
  · show (elevRun lapNoneFront).2.1 = 100
    rw [elevRun_lapNoneFront]

/-- C4 amended: inserting an unknown-altitude sample at any position other
than the first (that is, after at least one existing sample) leaves the
filter's outputs unchanged; at the first position the result can change,
because the initial reference is taken from the first sample's altitude with
unknown mapped to `0.0`. -/
theorem c4_none_insertion_after_first_sample (l : Lap) (l1 l2 : List TrackPoint)
    (tp : TrackPoint) (hl : l.track.track_points = l1 ++ l2) (h1 : l1 ≠ [])
    (htp : tp.altitude = none) :
    (({ l with track := (⟨l1 ++ tp :: l2⟩ : Track) }).calc_elevation).last_alt =
      (l.calc_elevation).last_alt ∧
    (({ l with track := (⟨l1 ++ tp :: l2⟩ : Track) }).calc_elevation).alt_gain_meters =
      (l.calc_elevation).alt_gain_meters ∧
    (({ l with track := (⟨l1 ++ tp :: l2⟩ : Track) }).calc_elevation).alt_loss_meters =
      (l.calc_elevation).alt_loss_meters := by
  obtain ⟨a, l1', rfl⟩ := List.exists_cons_of_ne_nil h1
  have hinit :
      elevInit { l with track := (⟨(a :: l1') ++ tp :: l2⟩ : Track) } =
        elevInit l := by
    simp [elevInit, hl]
  have hfold : ∀ s : ℚ × ℚ × ℚ,
      ((a :: l1') ++ tp :: l2).foldl elevStep s =
        ((a :: l1') ++ l2).foldl elevStep s := by
    intro s
    rw [List.foldl_append, List.foldl_append, List.foldl_cons,
      elevStep_of_none _ tp htp]
  have hrun :
      elevRun { l with track := (⟨(a :: l1') ++ tp :: l2⟩ : Track) } =
        elevRun l := by
    show ((a :: l1') ++ tp :: l2).foldl elevStep
        (elevInit { l with track := (⟨(a :: l1') ++ tp :: l2⟩ : Track) },
          l.alt_gain_meters, l.alt_loss_meters) =
      l.track.track_points.foldl elevStep
        (elevInit l, l.alt_gain_meters, l.alt_loss_meters)
    rw [hinit, hfold, hl]
  exact ⟨congrArg (fun s => s.1) hrun, congrArg (fun s => s.2.1) hrun,
    congrArg (fun s => s.2.2) hrun⟩

/-- Witness to C4 (amended): a none-altitude sample inserted between the two
samples of a concrete lap. -/
theorem c4_none_insertion_after_first_sample_witness :
    lapPair.track.track_points =
      [mkTp none (some 100)] ++ [mkTp none (some 102)] ∧
    (mkTp none none : TrackPoint).altitude = none ∧
    ((({ lapPair with
          track := (⟨[mkTp none (some 100)] ++ (mkTp none none) :: [mkTp none (some 102)]⟩ : Track) }).calc_elevation).last_alt =
        (lapPair.calc_elevation).last_alt ∧
     (({ lapPair with
          track := (⟨[mkTp none (some 100)] ++ (mkTp none none) :: [mkTp none (some 102)]⟩ : Track) }).calc_elevation).alt_gain_meters =
        (lapPair.calc_elevation).alt_gain_meters ∧
     (({ lapPair with
          track := (⟨[mkTp none (some 100)] ++ (mkTp none none) :: [mkTp none (some 102)]⟩ : Track) }).calc_elevation).alt_loss_meters =
        (lapPair.calc_elevation).alt_loss_meters) := by
  refine ⟨rfl, rfl, ?_⟩
  exact c4_none_insertion_after_first_sample lapPair
    [mkTp none (some 100)] [mkTp none (some 102)] (mkTp none none)
    rfl (by simp) rfl

/-- C6: the spec's worked example.  The altitude sequence
`[100.0, 100.5, 102.0, 101.0, 99.0]` yields `2.0` meters of gain and `3.0`
meters of loss (the `100.5` sample being sub-threshold noise), and the
activity-level feet conversions round to `7` and `10`. -/
theorem c6_worked_example :
    (lapWorked.track.track_points.map (fun tp => tp.altitude)) =
      [some 100, some (201/2), some 102, some 101, some 99] ∧
    (lapWorked.calc_elevation).alt_gain_meters = 2 ∧
    (lapWorked.calc_elevation).alt_loss_meters = 3 ∧
    (actWorked.calc_lap_elevations).total_elevation_gain = 7 ∧
    (actWorked.calc_lap_elevations).total_elevation_loss = 10 := by
  have hg : (lapWorked.calc_elevation).alt_gain_meters = 2 := by
    show (elevRun lapWorked).2.1 = 2
    rw [elevRun_lapWorked]
  have hlo : (lapWorked.calc_elevation).alt_loss_meters = 3 := by
    show (elevRun lapWorked).2.2 = 3
    rw [elevRun_lapWorked]
  have hlaps : (actWorked.calc_lap_elevations).laps = [lapWorked.calc_elevation] := rfl
  refine ⟨rfl, hg, hlo, ?_, ?_⟩
  · show castU64 (rustRound
      (((actWorked.calc_lap_elevations).laps.map Lap.alt_gain_meters).sum *
        FEET_PER_METER)) = 7
    rw [hlaps]
    simp only [List.map_cons, List.map_nil, List.sum_cons, List.sum_nil, hg,
      add_zero]
    have h7 : rustRound ((2 : ℚ) * FEET_PER_METER) = 7 := by
      rw [rustRound, if_pos (by norm_num [FEET_PER_METER])]
      rw [Int.floor_eq_iff]
      constructor <;> norm_num [FEET_PER_METER]
    rw [h7]
    decide
  · show castU64 (rustRound
      (((actWorked.calc_lap_elevations).laps.map Lap.alt_loss_meters).sum *
        FEET_PER_METER)) = 10
    rw [hlaps]
    simp only [List.map_cons, List.map_nil, List.sum_cons, List.sum_nil, hlo,
      add_zero]
    have h10 : rustRound ((3 : ℚ) * FEET_PER_METER) = 10 := by
      rw [rustRound, if_pos (by norm_num [FEET_PER_METER])]
      rw [Int.floor_eq_iff]
      constructor <;> norm_num [FEET_PER_METER]
    rw [h10]
    decide

/-- C7: the batch orchestrator's ordering is a permutation of the selected
activities, sorted by identifier in ascending lexicographic string order, and
stable: filtering either list down to any fixed identifier yields the same
sequence, so ties keep their relative input order. -/
theorem c7_orchestrator_sort_lex_stable (docs : List TrainingCenterDatabase) :
    (orderedActivities docs).Pairwise (fun a1 a2 => a1.id ≤ a2.id) ∧
    (orderedActivities docs).Perm (selectActivities docs) ∧
    ∀ s : String,
      (orderedActivities docs).filter (fun a => decide (a.id = s)) =
        (selectActivities docs).filter (fun a => decide (a.id = s)) := by
  have htrans : ∀ a b c : Activity, idLe a b → idLe b c → idLe a c := by
    intro a b c hab hbc
    simp only [idLe, decide_eq_true_eq] at *
    exact le_trans hab hbc
  have htotal : ∀ a b : Activity, idLe a b || idLe b a := by
    intro a b
    simp only [idLe, Bool.or_eq_true, decide_eq_true_eq]
    exact le_total _ _
  refine ⟨?_, ?_, ?_⟩
  · have hs := List.sorted_mergeSort htrans htotal (selectActivities docs)
    exact hs.imp (by intro a b hab; simpa [idLe, decide_eq_true_eq] using hab)
  · exact List.mergeSort_perm (selectActivities docs) idLe
  · intro s
    have hmem : ∀ x ∈ (selectActivities docs).filter (fun a => decide (a.id = s)),
        x.id = s := by
      intro x hx
      simpa using List.of_mem_filter hx
    have hpair : ((selectActivities docs).filter (fun a => decide (a.id = s))).Pairwise
        (fun a b => idLe a b = true) := by
      apply List.pairwise_of_forall_mem_list
      intro a ha b hb
      simp [idLe, hmem a ha, hmem b hb]
    have hsub : ((selectActivities docs).filter (fun a => decide (a.id = s))).Sublist
        (orderedActivities docs) :=
      List.sublist_mergeSort htrans htotal hpair (List.filter_sublist _)
    have hself : ((selectActivities docs).filter (fun a => decide (a.id = s))).filter
        (fun a => decide (a.id = s)) =
        (selectActivities docs).filter (fun a => decide (a.id = s)) := by
      apply List.filter_eq_self.mpr
      intro x hx
      simpa using hmem x hx
    have hsubf : ((selectActivities docs).filter (fun a => decide (a.id = s))).Sublist
        ((orderedActivities docs).filter (fun a => decide (a.id = s))) := by
      have := hsub.filter (fun a => decide (a.id = s))
      rwa [hself] at this
    have hperm : ((orderedActivities docs).filter (fun a => decide (a.id = s))).Perm
        ((selectActivities docs).filter (fun a => decide (a.id = s))) :=
      (List.mergeSort_perm (selectActivities docs) idLe).filter _
    exact (hsubf.eq_of_length hperm.length_eq.symm).symm

end Tcxrs
